import Mathlib

/-
Verification of the concurrency scheduler in
src/crates/blockifier/src/concurrency/scheduler.rs (a Block-STM style
transaction scheduler).

The scheduler is embedded shallowly as a pure state type `Scheduler` with the
methods of the Rust implementation translated to state-passing functions,
read under a sequential (single worker, quiescent) semantics: each Rust method
runs atomically on the state. Machine integers (`usize`) become `Nat`; the
counters never approach overflow in the source's intended use. Rust panics
(failed `assert!` and out-of-bounds mutex-array indexing) are modelled by
`Option`: `none` is a panic/process abort.
-/

set_option autoImplicit false

namespace Blockifier

/-- Per-transaction status, from `TransactionStatus` in scheduler.rs. -/
inductive TransactionStatus
  | ReadyToExecute
  | Executing
  | Executed
  | Aborting
  | Committed
  deriving DecidableEq, Repr

/-- Work units handed out to worker threads, from `Task` in scheduler.rs. -/
inductive Task
  | ExecutionTask (tx_index : Nat)
  | ValidationTask (tx_index : Nat)
  | AskForTask
  | NoTaskAvailable
  | Done
  deriving DecidableEq, Repr

/-- The scheduler state, from `struct Scheduler` in scheduler.rs.  The atomics
and mutex-protected cells become plain fields; `tx_statuses` is the boxed
slice of per-index status cells (its length is `chunk_size` for every
scheduler built by `Scheduler.new`). -/
structure Scheduler where
  execution_index : Nat
  validation_index : Nat
  commit_index : Nat
  chunk_size : Nat
  tx_statuses : List TransactionStatus
  done_marker : Bool
  deriving DecidableEq, Repr

namespace Scheduler

/-- Constructor `Scheduler::new(chunk_size)`. -/
def new (chunk_size : Nat) : Scheduler :=
  { execution_index := 0
    validation_index := chunk_size
    commit_index := 0
    chunk_size := chunk_size
    tx_statuses := List.replicate chunk_size TransactionStatus.ReadyToExecute
    done_marker := false }

/-- Reading the done marker, `Scheduler::done`. -/
def done (s : Scheduler) : Bool :=
  s.done_marker

/-- Setting the done marker, `Scheduler::halt`. -/
def halt (s : Scheduler) : Scheduler :=
  { s with done_marker := true }

/-- Reading `status[i]`: `lock_tx_status` observes the cell; an out-of-bounds
index panics in Rust (`none` here). -/
def lock_tx_status (s : Scheduler) (tx_index : Nat) : Option TransactionStatus :=
  s.tx_statuses[tx_index]?

/-- Writing through the status-cell guard obtained by `lock_tx_status`. -/
def write_tx_status (s : Scheduler) (tx_index : Nat) (status : TransactionStatus) : Scheduler :=
  { s with tx_statuses := s.tx_statuses.set tx_index status }

/-- Observer `Scheduler::get_n_committed_txs`. -/
def get_n_committed_txs (s : Scheduler) : Nat :=
  s.commit_index

/-- Internal `Scheduler::set_executed_status`: asserts the status is
`Executing` (else the process aborts) and sets it to `Executed`. -/
def set_executed_status (s : Scheduler) (tx_index : Nat) : Option Scheduler :=
  match s.lock_tx_status tx_index with
  | none => none
  | some status =>
    if status = TransactionStatus.Executing then
      some (s.write_tx_status tx_index TransactionStatus.Executed)
    else
      none

/-- Internal `Scheduler::set_ready_status`: asserts the status is `Aborting`
(else the process aborts) and sets it to `ReadyToExecute`. -/
def set_ready_status (s : Scheduler) (tx_index : Nat) : Option Scheduler :=
  match s.lock_tx_status tx_index with
  | none => none
  | some status =>
    if status = TransactionStatus.Aborting then
      some (s.write_tx_status tx_index TransactionStatus.ReadyToExecute)
    else
      none

/-- Internal `Scheduler::decrease_validation_index`, a `fetch_min`. -/
def decrease_validation_index (s : Scheduler) (target_index : Nat) : Scheduler :=
  { s with validation_index := min s.validation_index target_index }

/-- Internal `Scheduler::try_incarnate`: if the index is in range and
`ReadyToExecute`, move it to `Executing` and report success.  The bound check
precedes the cell access, so this method cannot panic on a scheduler whose
status table has `chunk_size` cells; the `none` branch is unreachable there. -/
def try_incarnate (s : Scheduler) (tx_index : Nat) : Bool × Scheduler :=
  if tx_index < s.chunk_size then
    match s.lock_tx_status tx_index with
    | some status =>
      if status = TransactionStatus.ReadyToExecute then
        (true, s.write_tx_status tx_index TransactionStatus.Executing)
      else
        (false, s)
    | none => (false, s)
  else
    (false, s)

/-- Internal `Scheduler::next_version_to_validate`: peek the validation
cursor, bail out early at or past the chunk end, otherwise fetch-add it and
hand out the claimed index when its status is `Executed`. -/
def next_version_to_validate (s : Scheduler) : Option Nat × Scheduler :=
  let index_to_validate := s.validation_index
  if index_to_validate ≥ s.chunk_size then
    (none, s)
  else
    let s1 := { s with validation_index := index_to_validate + 1 }
    if index_to_validate < s.chunk_size then
      match s.lock_tx_status index_to_validate with
      | some status =>
        if status = TransactionStatus.Executed then
          (some index_to_validate, s1)
        else
          (none, s1)
      | none => (none, s1)
    else
      (none, s1)

/-- Internal `Scheduler::next_version_to_execute`: peek the execution cursor,
bail out early at or past the chunk end, otherwise fetch-add it and hand out
the claimed index when `try_incarnate` succeeds. -/
def next_version_to_execute (s : Scheduler) : Option Nat × Scheduler :=
  let index_to_execute := s.execution_index
  if index_to_execute ≥ s.chunk_size then
    (none, s)
  else
    let s1 := { s with execution_index := index_to_execute + 1 }
    match s1.try_incarnate index_to_execute with
    | (true, s2) => (some index_to_execute, s2)
    | (false, s2) => (none, s2)

/-- Dispatcher `Scheduler::next_task`. -/
def next_task (s : Scheduler) : Task × Scheduler :=
  if s.done then
    (Task.Done, s)
  else
    let index_to_validate := s.validation_index
    let index_to_execute := s.execution_index
    if min index_to_validate index_to_execute ≥ s.chunk_size then
      (Task.NoTaskAvailable, s)
    else if index_to_validate < index_to_execute then
      match s.next_version_to_validate with
      | (some tx_index, s1) => (Task.ValidationTask tx_index, s1)
      | (none, s1) =>
        match s1.next_version_to_execute with
        | (some tx_index, s2) => (Task.ExecutionTask tx_index, s2)
        | (none, s2) => (Task.AskForTask, s2)
    else
      match s.next_version_to_execute with
      | (some tx_index, s1) => (Task.ExecutionTask tx_index, s1)
      | (none, s1) => (Task.AskForTask, s1)

/-- Public `Scheduler::finish_execution`: `Executing → Executed` (asserted),
then lower the validation frontier to the finished index. -/
def finish_execution (s : Scheduler) (tx_index : Nat) : Option Scheduler :=
  (s.set_executed_status tx_index).map fun s1 =>
    s1.decrease_validation_index tx_index

/-- Public `Scheduler::try_validation_abort`: claim the abort of an
`Executed` transaction. -/
def try_validation_abort (s : Scheduler) (tx_index : Nat) : Option (Bool × Scheduler) :=
  match s.lock_tx_status tx_index with
  | none => none
  | some status =>
    if status = TransactionStatus.Executed then
      some (true, s.write_tx_status tx_index TransactionStatus.Aborting)
    else
      some (false, s)

/-- Public `Scheduler::finish_abort`: `Aborting → ReadyToExecute` (asserted),
then hand the index straight back for re-execution when it is already behind
the execution frontier and can be incarnated. -/
def finish_abort (s : Scheduler) (tx_index : Nat) : Option (Task × Scheduler) :=
  (s.set_ready_status tx_index).map fun s1 =>
    if s1.execution_index > tx_index then
      match s1.try_incarnate tx_index with
      | (true, s2) => (Task.ExecutionTask tx_index, s2)
      | (false, s2) => (Task.AskForTask, s2)
    else
      (Task.AskForTask, s1)

/-- Public `Scheduler::finish_execution_during_commit`: the status is already
`Committed`; only re-validate the strictly higher indices. -/
def finish_execution_during_commit (s : Scheduler) (tx_index : Nat) : Scheduler :=
  s.decrease_validation_index (tx_index + 1)

/-- Testing helper `Scheduler::set_tx_status` (compiled under cfg(test)):
overwrite the status cell when the index is in range, otherwise do nothing. -/
def set_tx_status (s : Scheduler) (tx_index : Nat) (status : TransactionStatus) : Scheduler :=
  if tx_index < s.chunk_size then
    s.write_tx_status tx_index status
  else
    s

end Scheduler

namespace TransactionCommitter

/-- Commit-handle method `TransactionCommitter::try_commit`.  The handle
holds the commit-index mutex, so the guard dereferences become reads and
writes of `commit_index`.  Result `none` is the `assert!(commit_index <
chunk_size)` panic (or an out-of-bounds status access); `some (r, s)` is a
normal return of `r`. -/
def try_commit (s : Scheduler) : Option (Option Nat × Scheduler) :=
  if s.done then
    some (none, s)
  else if s.commit_index < s.chunk_size then
    match s.lock_tx_status s.commit_index with
    | none => none
    | some status =>
      if status = TransactionStatus.Executed then
        let s1 := s.write_tx_status s.commit_index TransactionStatus.Committed
        let s2 := { s1 with commit_index := s1.commit_index + 1 }
        let s3 :=
          if s2.commit_index = s2.chunk_size then
            { s2 with done_marker := true }
          else
            s2
        some (some (s3.commit_index - 1), s3)
      else
        some (none, s)
  else
    none

/-- Commit-handle method `TransactionCommitter::halt_scheduler`: assert
`commit_index > 0` (else the process aborts), decrement it, then
`Scheduler::halt`. -/
def halt_scheduler (s : Scheduler) : Option Scheduler :=
  if s.commit_index > 0 then
    some (({ s with commit_index := s.commit_index - 1 } : Scheduler).halt)
  else
    none

end TransactionCommitter

/-- Decision procedure of `next_task` as the specification words it: `Done`
once the done marker is set; `NoTaskAvailable` when both cursors are at or
past the chunk end; a validation task for the claimed cursor value when the
validation cursor is strictly behind the execution cursor and points at an
`Executed` in-range transaction; failing that, an execution task for the
claimed execution-cursor value when it is in range and `ReadyToExecute`;
otherwise `AskForTask`.  Written from the specification's words, to be
compared with the source embedding `Scheduler.next_task`. -/
def next_task_decision (s : Scheduler) : Task :=
  if s.done_marker then
    Task.Done
  else if min s.validation_index s.execution_index ≥ s.chunk_size then
    Task.NoTaskAvailable
  else if s.validation_index < s.execution_index ∧
      s.validation_index < s.chunk_size ∧
      s.tx_statuses[s.validation_index]? = some TransactionStatus.Executed then
    Task.ValidationTask s.validation_index
  else if s.execution_index < s.chunk_size ∧
      s.tx_statuses[s.execution_index]? = some TransactionStatus.ReadyToExecute then
    Task.ExecutionTask s.execution_index
  else
    Task.AskForTask

/-- Invariant 2 of the specification's data model: when the commit cursor has
reached the chunk size, the done marker is set. -/
def commit_done_inv (s : Scheduler) : Prop :=
  s.commit_index = s.chunk_size → s.done_marker = true

namespace Scheduler

theorem nvv_hit (s : Scheduler)
    (hlt : s.validation_index < s.chunk_size)
    (hsv : s.tx_statuses[s.validation_index]? = some TransactionStatus.Executed) :
    s.next_version_to_validate =
      (some s.validation_index, { s with validation_index := s.validation_index + 1 }) := by
  simp [Scheduler.next_version_to_validate, Scheduler.lock_tx_status, hlt, hsv,
    Nat.not_le.mpr hlt]

theorem nvv_miss (s : Scheduler) (st : TransactionStatus)
    (hlt : s.validation_index < s.chunk_size)
    (hsv : s.tx_statuses[s.validation_index]? = some st)
    (hne : st ≠ TransactionStatus.Executed) :
    s.next_version_to_validate =
      (none, { s with validation_index := s.validation_index + 1 }) := by
  simp [Scheduler.next_version_to_validate, Scheduler.lock_tx_status, hlt, hsv, hne,
    Nat.not_le.mpr hlt]

theorem nvv_miss_oob (s : Scheduler)
    (hlt : s.validation_index < s.chunk_size)
    (hsv : s.tx_statuses[s.validation_index]? = none) :
    s.next_version_to_validate =
      (none, { s with validation_index := s.validation_index + 1 }) := by
  simp [Scheduler.next_version_to_validate, Scheduler.lock_tx_status, hlt, hsv,
    Nat.not_le.mpr hlt]

theorem nvv_out (s : Scheduler)
    (hge : s.chunk_size ≤ s.validation_index) :
    s.next_version_to_validate = (none, s) := by
  simp [Scheduler.next_version_to_validate, hge]

theorem nve_hit (s : Scheduler)
    (hlt : s.execution_index < s.chunk_size)
    (hsv : s.tx_statuses[s.execution_index]? = some TransactionStatus.ReadyToExecute) :
    s.next_version_to_execute =
      (some s.execution_index,
        { s with execution_index := s.execution_index + 1,
                 tx_statuses :=
                   s.tx_statuses.set s.execution_index TransactionStatus.Executing }) := by
  simp [Scheduler.next_version_to_execute, Scheduler.try_incarnate, Scheduler.lock_tx_status,
    Scheduler.write_tx_status, hlt, hsv, Nat.not_le.mpr hlt]

theorem nve_miss (s : Scheduler) (st : TransactionStatus)
    (hlt : s.execution_index < s.chunk_size)
    (hsv : s.tx_statuses[s.execution_index]? = some st)
    (hne : st ≠ TransactionStatus.ReadyToExecute) :
    s.next_version_to_execute =
      (none, { s with execution_index := s.execution_index + 1 }) := by
  simp [Scheduler.next_version_to_execute, Scheduler.try_incarnate, Scheduler.lock_tx_status,
    hlt, hsv, hne, Nat.not_le.mpr hlt]

theorem nve_miss_oob (s : Scheduler)
    (hlt : s.execution_index < s.chunk_size)
    (hsv : s.tx_statuses[s.execution_index]? = none) :
    s.next_version_to_execute =
      (none, { s with execution_index := s.execution_index + 1 }) := by
  simp [Scheduler.next_version_to_execute, Scheduler.try_incarnate, Scheduler.lock_tx_status,
    hlt, hsv, Nat.not_le.mpr hlt]

theorem nve_out (s : Scheduler)
    (hge : s.chunk_size ≤ s.execution_index) :
    s.next_version_to_execute = (none, s) := by
  simp [Scheduler.next_version_to_execute, hge]

theorem next_task_fst_eq (s : Scheduler) :
    (s.next_task).1 = next_task_decision s := by
  by_cases hd : s.done_marker
  · simp [Scheduler.next_task, Scheduler.done, next_task_decision, hd]
  · by_cases hmin : s.chunk_size ≤ min s.validation_index s.execution_index
    · simp [Scheduler.next_task, Scheduler.done, next_task_decision, hd, hmin]
    · by_cases hve : s.validation_index < s.execution_index
      · have hvc : s.validation_index < s.chunk_size := by omega
        cases hsv : s.tx_statuses[s.validation_index]? with
        | some st =>
          by_cases hst : st = TransactionStatus.Executed
          · subst hst
            simp [Scheduler.next_task, Scheduler.done, next_task_decision, hd, hmin, hve,
              hvc, hsv, nvv_hit s hvc hsv]
          · have hmiss := nvv_miss s st hvc hsv hst
            by_cases hec : s.execution_index < s.chunk_size
            · cases hse : s.tx_statuses[s.execution_index]? with
              | some st2 =>
                by_cases hst2 : st2 = TransactionStatus.ReadyToExecute
                · subst hst2
                  simp [Scheduler.next_task, Scheduler.done, next_task_decision, hd, hmin,
                    hve, hvc, hsv, hst, hmiss, hec, hse, nve_hit]
                · simp [Scheduler.next_task, Scheduler.done, next_task_decision, hd, hmin,
                    hve, hvc, hsv, hst, hmiss, hec, hse, hst2, nve_miss]
              | none =>
                simp [Scheduler.next_task, Scheduler.done, next_task_decision, hd, hmin,
                  hve, hvc, hsv, hst, hmiss, hec, hse, nve_miss_oob]
            · have hgee : s.chunk_size ≤ s.execution_index := Nat.le_of_not_lt hec
              simp [Scheduler.next_task, Scheduler.done, next_task_decision, hd, hmin,
                hve, hvc, hsv, hst, hmiss, hec, hgee, nve_out]
        | none =>
          have hmiss := nvv_miss_oob s hvc hsv
          by_cases hec : s.execution_index < s.chunk_size
          · cases hse : s.tx_statuses[s.execution_index]? with
            | some st2 =>
              by_cases hst2 : st2 = TransactionStatus.ReadyToExecute
              · subst hst2
                simp [Scheduler.next_task, Scheduler.done, next_task_decision, hd, hmin,
                  hve, hvc, hsv, hmiss, hec, hse, nve_hit]
              · simp [Scheduler.next_task, Scheduler.done, next_task_decision, hd, hmin,
                  hve, hvc, hsv, hmiss, hec, hse, hst2, nve_miss]
            | none =>
              simp [Scheduler.next_task, Scheduler.done, next_task_decision, hd, hmin,
                hve, hvc, hsv, hmiss, hec, hse, nve_miss_oob]
          · have hgee : s.chunk_size ≤ s.execution_index := Nat.le_of_not_lt hec
            simp [Scheduler.next_task, Scheduler.done, next_task_decision, hd, hmin,
              hve, hvc, hsv, hmiss, hec, hgee, nve_out]
      · have hec : s.execution_index < s.chunk_size := by omega
        cases hse : s.tx_statuses[s.execution_index]? with
        | some st2 =>
          by_cases hst2 : st2 = TransactionStatus.ReadyToExecute
          · subst hst2
            simp [Scheduler.next_task, Scheduler.done, next_task_decision, hd, hmin, hve,
              hec, hse, nve_hit]
          · simp [Scheduler.next_task, Scheduler.done, next_task_decision, hd, hmin, hve,
              hec, hse, hst2, nve_miss]
        | none =>
          simp [Scheduler.next_task, Scheduler.done, next_task_decision, hd, hmin, hve,
            hec, hse, nve_miss_oob]

theorem next_task_snd_fields (s : Scheduler) :
    ((s.next_task).2).commit_index = s.commit_index ∧
    ((s.next_task).2).chunk_size = s.chunk_size ∧
    ((s.next_task).2).done_marker = s.done_marker ∧
    s.validation_index ≤ ((s.next_task).2).validation_index := by
  by_cases hd : s.done_marker
  · simp [Scheduler.next_task, Scheduler.done, hd]
  · by_cases hmin : s.chunk_size ≤ min s.validation_index s.execution_index
    · simp [Scheduler.next_task, Scheduler.done, hd, hmin]
    · by_cases hve : s.validation_index < s.execution_index
      · have hvc : s.validation_index < s.chunk_size := by omega
        cases hsv : s.tx_statuses[s.validation_index]? with
        | some st =>
          by_cases hst : st = TransactionStatus.Executed
          · subst hst
            simp [Scheduler.next_task, Scheduler.done, hd, hmin, hve, nvv_hit s hvc hsv]
          · have hmiss := nvv_miss s st hvc hsv hst
            by_cases hec : s.execution_index < s.chunk_size
            · cases hse : s.tx_statuses[s.execution_index]? with
              | some st2 =>
                by_cases hst2 : st2 = TransactionStatus.ReadyToExecute
                · subst hst2
                  simp [Scheduler.next_task, Scheduler.done, hd, hmin, hve, hmiss, hec,
                    hse, nve_hit]
                · simp [Scheduler.next_task, Scheduler.done, hd, hmin, hve, hmiss, hec,
                    hse, hst2, nve_miss]
              | none =>
                simp [Scheduler.next_task, Scheduler.done, hd, hmin, hve, hmiss, hec,
                  hse, nve_miss_oob]
            · have hgee : s.chunk_size ≤ s.execution_index := Nat.le_of_not_lt hec
              simp [Scheduler.next_task, Scheduler.done, hd, hmin, hve, hmiss, hgee,
                nve_out]
        | none =>
          have hmiss := nvv_miss_oob s hvc hsv
          by_cases hec : s.execution_index < s.chunk_size
          · cases hse : s.tx_statuses[s.execution_index]? with
            | some st2 =>
              by_cases hst2 : st2 = TransactionStatus.ReadyToExecute
              · subst hst2
                simp [Scheduler.next_task, Scheduler.done, hd, hmin, hve, hmiss, hec,
                  hse, nve_hit]
              · simp [Scheduler.next_task, Scheduler.done, hd, hmin, hve, hmiss, hec,
                  hse, hst2, nve_miss]
            | none =>
              simp [Scheduler.next_task, Scheduler.done, hd, hmin, hve, hmiss, hec,
                hse, nve_miss_oob]
          · have hgee : s.chunk_size ≤ s.execution_index := Nat.le_of_not_lt hec
            simp [Scheduler.next_task, Scheduler.done, hd, hmin, hve, hmiss, hgee,
              nve_out]
      · have hec : s.execution_index < s.chunk_size := by omega
        cases hse : s.tx_statuses[s.execution_index]? with
        | some st2 =>
          by_cases hst2 : st2 = TransactionStatus.ReadyToExecute
          · subst hst2
            simp [Scheduler.next_task, Scheduler.done, hd, hmin, hve, hec, hse, nve_hit]
          · simp [Scheduler.next_task, Scheduler.done, hd, hmin, hve, hec, hse, hst2,
              nve_miss]
        | none =>
          simp [Scheduler.next_task, Scheduler.done, hd, hmin, hve, hec, hse, nve_miss_oob]

theorem set_executed_status_eq_some (s : Scheduler) (i : Nat) (s1 : Scheduler)
    (h : s.set_executed_status i = some s1) :
    s1 = s.write_tx_status i TransactionStatus.Executed := by
  unfold Scheduler.set_executed_status at h
  cases hsv : s.lock_tx_status i with
  | none => rw [hsv] at h; cases h
  | some st =>
    rw [hsv] at h
    by_cases hst : st = TransactionStatus.Executing
    · simp [hst] at h
      exact h.symm
    · simp [hst] at h

theorem set_ready_status_eq_some (s : Scheduler) (i : Nat) (s1 : Scheduler)
    (h : s.set_ready_status i = some s1) :
    s1 = s.write_tx_status i TransactionStatus.ReadyToExecute := by
  unfold Scheduler.set_ready_status at h
  cases hsv : s.lock_tx_status i with
  | none => rw [hsv] at h; cases h
  | some st =>
    rw [hsv] at h
    by_cases hst : st = TransactionStatus.Aborting
    · simp [hst] at h
      exact h.symm
    · simp [hst] at h

theorem finish_execution_fields (s : Scheduler) (i : Nat) (s1 : Scheduler)
    (h : s.finish_execution i = some s1) :
    s1.done_marker = s.done_marker ∧ s1.commit_index = s.commit_index ∧
    s1.chunk_size = s.chunk_size ∧ s1.validation_index = min s.validation_index i := by
  unfold Scheduler.finish_execution at h
  rw [Option.map_eq_some'] at h
  obtain ⟨a, ha, hb⟩ := h
  have := set_executed_status_eq_some s i a ha
  subst this
  subst hb
  simp [Scheduler.decrease_validation_index, Scheduler.write_tx_status]

theorem try_validation_abort_fields (s : Scheduler) (i : Nat) (r : Bool × Scheduler)
    (h : s.try_validation_abort i = some r) :
    (r.2).done_marker = s.done_marker ∧ (r.2).commit_index = s.commit_index ∧
    (r.2).chunk_size = s.chunk_size ∧ (r.2).validation_index = s.validation_index := by
  unfold Scheduler.try_validation_abort at h
  cases hsv : s.lock_tx_status i with
  | none => rw [hsv] at h; cases h
  | some st =>
    rw [hsv] at h
    by_cases hst : st = TransactionStatus.Executed
    · simp [hst] at h
      subst h
      simp [Scheduler.write_tx_status]
    · simp [hst] at h
      subst h
      simp

theorem try_incarnate_fields (s : Scheduler) (i : Nat) :
    ((s.try_incarnate i).2).done_marker = s.done_marker ∧
    ((s.try_incarnate i).2).commit_index = s.commit_index ∧
    ((s.try_incarnate i).2).chunk_size = s.chunk_size ∧
    ((s.try_incarnate i).2).validation_index = s.validation_index ∧
    ((s.try_incarnate i).2).execution_index = s.execution_index := by
  unfold Scheduler.try_incarnate
  by_cases hlt : i < s.chunk_size
  · cases hsv : s.lock_tx_status i with
    | none => simp [hlt, hsv]
    | some st =>
      by_cases hst : st = TransactionStatus.ReadyToExecute
      · simp [hlt, hsv, hst, Scheduler.write_tx_status]
      · simp [hlt, hsv, hst]
  · simp [hlt]

theorem finish_abort_fields (s : Scheduler) (i : Nat) (r : Task × Scheduler)
    (h : s.finish_abort i = some r) :
    (r.2).done_marker = s.done_marker ∧ (r.2).commit_index = s.commit_index ∧
    (r.2).chunk_size = s.chunk_size ∧ (r.2).validation_index = s.validation_index := by
  unfold Scheduler.finish_abort at h
  rw [Option.map_eq_some'] at h
  obtain ⟨a, ha, hb⟩ := h
  have ha2 := set_ready_status_eq_some s i a ha
  subst ha2
  by_cases hgt : (s.write_tx_status i TransactionStatus.ReadyToExecute).execution_index > i
  · rw [if_pos hgt] at hb
    rcases hti : (s.write_tx_status i TransactionStatus.ReadyToExecute).try_incarnate i with ⟨b, s2⟩
    have hfields := try_incarnate_fields (s.write_tx_status i TransactionStatus.ReadyToExecute) i
    rw [hti] at hfields
    rw [hti] at hb
    cases b
    · simp at hb
      subst hb
      simp [Scheduler.write_tx_status] at hfields
      exact ⟨hfields.1, hfields.2.1, hfields.2.2.1, hfields.2.2.2.1⟩
    · simp at hb
      subst hb
      simp [Scheduler.write_tx_status] at hfields
      exact ⟨hfields.1, hfields.2.1, hfields.2.2.1, hfields.2.2.2.1⟩
  · rw [if_neg hgt] at hb
    subst hb
    simp [Scheduler.write_tx_status]


theorem nve_validation_eq (s : Scheduler) :
    ((s.next_version_to_execute).2).validation_index = s.validation_index := by
  by_cases hlt : s.execution_index < s.chunk_size
  · cases hsv : s.tx_statuses[s.execution_index]? with
    | none => rw [nve_miss_oob s hlt hsv]
    | some st =>
      by_cases hst : st = TransactionStatus.ReadyToExecute
      · subst hst
        rw [nve_hit s hlt hsv]
      · rw [nve_miss s st hlt hsv hst]
  · rw [nve_out s (Nat.le_of_not_lt hlt)]

end Scheduler

namespace TransactionCommitter

theorem try_commit_validation_eq (s : Scheduler) (r : Option Nat × Scheduler)
    (h : try_commit s = some r) :
    (r.2).validation_index = s.validation_index := by
  unfold try_commit at h
  by_cases hd : s.done
  · simp [hd] at h
    subst h
    rfl
  · by_cases hci : s.commit_index < s.chunk_size
    · simp [hd, hci] at h
      cases hsv : s.lock_tx_status s.commit_index with
      | none => rw [hsv] at h; cases h
      | some st =>
        rw [hsv] at h
        by_cases hst : st = TransactionStatus.Executed
        · simp [hst] at h
          subst h
          by_cases heq : s.commit_index + 1 = s.chunk_size <;>
            simp [Scheduler.write_tx_status, heq]
        · simp [hst] at h
          subst h
          rfl
    · simp [hd, hci] at h

end TransactionCommitter


/-
Claims of the specification, settled against the embedding above.
-/

/-- Claim C1: for a scheduler whose done marker is false (with the commit
cursor in range, as data-model invariants 1 and 2 guarantee for reachable
states), `try_commit` returns nothing and changes no state when the status at
the commit cursor is not `Executed`; otherwise it sets that status to
`Committed`, increments the commit cursor by one, sets the done marker to
true exactly when the new cursor equals the chunk size, and returns the
pre-increment cursor value.  When the done marker is true, `try_commit`
returns nothing. -/
theorem try_commit_correct (s : Scheduler) (st : TransactionStatus)
    (hci : s.commit_index < s.chunk_size)
    (hst : s.tx_statuses[s.commit_index]? = some st) :
    (s.done_marker = true → TransactionCommitter.try_commit s = some (none, s)) ∧
    (s.done_marker = false → st ≠ TransactionStatus.Executed →
      TransactionCommitter.try_commit s = some (none, s)) ∧
    (s.done_marker = false → st = TransactionStatus.Executed →
      TransactionCommitter.try_commit s =
        some (some s.commit_index,
          { s with
            tx_statuses := s.tx_statuses.set s.commit_index TransactionStatus.Committed,
            commit_index := s.commit_index + 1,
            done_marker := decide (s.commit_index + 1 = s.chunk_size) })) := by
  refine ⟨?_, ?_, ?_⟩
  · intro hd
    simp [TransactionCommitter.try_commit, Scheduler.done, hd]
  · intro hd hne
    simp [TransactionCommitter.try_commit, Scheduler.done, hd, hci,
      Scheduler.lock_tx_status, hst, hne]
  · intro hd hex
    subst hex
    by_cases heq : s.commit_index + 1 = s.chunk_size
    · simp [TransactionCommitter.try_commit, Scheduler.done, hd, hci,
        Scheduler.lock_tx_status, hst, Scheduler.write_tx_status, heq]
      omega
    · simp [TransactionCommitter.try_commit, Scheduler.done, hd, hci,
        Scheduler.lock_tx_status, hst, Scheduler.write_tx_status, heq]

/-- Witness for C1: a one-transaction chunk whose single transaction is
`Executed` commits it, returns index 0 and sets the done marker. -/
theorem try_commit_correct_witness :
    TransactionCommitter.try_commit
        ((Scheduler.new 1).set_tx_status 0 TransactionStatus.Executed) =
      some (some 0,
        { execution_index := 0, validation_index := 1, commit_index := 1, chunk_size := 1,
          tx_statuses := [TransactionStatus.Committed], done_marker := true }) :=
  ((try_commit_correct ((Scheduler.new 1).set_tx_status 0 TransactionStatus.Executed)
      TransactionStatus.Executed (by decide) (by decide)).2.2 (by decide) rfl).trans (by decide)

/-- Claim C2: `next_task` follows the specified decision procedure: `Done`
when the done marker is set; otherwise `NoTaskAvailable` when the minimum of
the validation and execution cursors is at or past the chunk size; otherwise,
when the validation cursor is strictly below the execution cursor, a
`ValidationTask` for the claimed index exactly when it is below the chunk
size with status `Executed`; failing that, an `ExecutionTask` for the claimed
execution index exactly when it is below the chunk size with status
`ReadyToExecute`; otherwise `AskForTask`. -/
theorem next_task_follows_decision (s : Scheduler) :
    (s.next_task).1 = next_task_decision s :=
  Scheduler.next_task_fst_eq s

/-- Counterexample for C3: a scheduler freshly constructed with chunk size 0
has commit cursor equal to the chunk size but its done marker is false, so
invariant 2 fails immediately after construction and the claim that `new(0)`
has a true done marker is refuted. -/
theorem new_zero_commit_done_counterexample :
    (Scheduler.new 0).commit_index = (Scheduler.new 0).chunk_size ∧
    (Scheduler.new 0).done_marker = false ∧
    ¬ commit_done_inv (Scheduler.new 0) := by
  refine ⟨rfl, rfl, ?_⟩
  intro h
  exact absurd (h rfl) (by decide)

/-- Claim C3 (amended): the invariant (commit cursor equal to chunk size
implies the done marker) holds immediately after construction for every
positive chunk size, and it is preserved by the operations that modify the
commit cursor or the done marker (`try_commit`, `halt`, `halt_scheduler`) and
by the dispatcher; but a scheduler freshly constructed with chunk size 0
violates it: the constructor never sets the done marker. -/
theorem commit_done_inv_amended :
    (∀ n : Nat, 0 < n → commit_done_inv (Scheduler.new n)) ∧
    ¬ commit_done_inv (Scheduler.new 0) ∧
    (∀ s r s1, TransactionCommitter.try_commit s = some (r, s1) → commit_done_inv s1) ∧
    (∀ s : Scheduler, commit_done_inv s.halt) ∧
    (∀ s s1, TransactionCommitter.halt_scheduler s = some s1 → commit_done_inv s1) ∧
    (∀ s : Scheduler, commit_done_inv s → commit_done_inv (s.next_task).2) := by
  refine ⟨?_, ?_, ?_, ?_, ?_, ?_⟩
  · intro n hn h
    simp [Scheduler.new] at h
    omega
  · intro h
    exact absurd (h rfl) (by decide)
  · intro s r s1 h
    unfold TransactionCommitter.try_commit at h
    by_cases hd : s.done
    · simp [hd] at h
      intro _
      rw [h.2.symm]
      simpa [Scheduler.done] using hd
    · by_cases hci : s.commit_index < s.chunk_size
      · simp [hd, hci] at h
        cases hsv : s.lock_tx_status s.commit_index with
        | none => rw [hsv] at h; cases h
        | some st =>
          rw [hsv] at h
          by_cases hst : st = TransactionStatus.Executed
          · simp [hst] at h
            rw [h.2.symm]
            by_cases heq : s.commit_index + 1 = s.chunk_size
            · simp [commit_done_inv, Scheduler.write_tx_status, heq]
            · simp [commit_done_inv, Scheduler.write_tx_status, heq]
          · simp [hst] at h
            rw [h.2.symm]
            intro hcc
            exact absurd hcc (by omega)
      · simp [hd, hci] at h
  · intro s _
    rfl
  · intro s s1 h
    unfold TransactionCommitter.halt_scheduler at h
    by_cases hpos : s.commit_index > 0
    · simp [hpos] at h
      rw [h.symm]
      intro _
      rfl
    · simp [hpos] at h
  · intro s hs h
    have hf := Scheduler.next_task_snd_fields s
    rw [hf.1, hf.2.1] at h
    rw [hf.2.2.1]
    exact hs h

/-- Witness for the amended C3 at a concrete positive chunk size. -/
theorem commit_done_inv_amended_witness : commit_done_inv (Scheduler.new 3) :=
  commit_done_inv_amended.1 3 (by decide)

/-- Claim C4, evaluated at the failing input: for a freshly constructed
scheduler with chunk size 0, `try_commit` hits the `commit_index <
chunk_size` assertion (0 < 0 fails) and panics instead of returning nothing;
the done marker stays false and `next_task` answers `NoTaskAvailable`, so
`Done` is unreachable for an empty chunk without an explicit halt. -/
theorem try_commit_empty_chunk_panics :
    TransactionCommitter.try_commit (Scheduler.new 0) = none ∧
    (Scheduler.new 0).done_marker = false ∧
    (Scheduler.new 0).next_task = (Task.NoTaskAvailable, Scheduler.new 0) := by
  refine ⟨by decide, rfl, by decide⟩

/-- Claim C5: `finish_execution(i)` moves status i from `Executing` to
`Executed`, panicking when the status is anything else, and afterwards the
validation cursor equals the minimum of its previous value and i, hence is at
most i and never above its previous value. -/
theorem finish_execution_correct (s : Scheduler) (i : Nat) (st : TransactionStatus)
    (hst : s.tx_statuses[i]? = some st) :
    (st ≠ TransactionStatus.Executing → s.finish_execution i = none) ∧
    (st = TransactionStatus.Executing →
      s.finish_execution i =
        some { s with
          tx_statuses := s.tx_statuses.set i TransactionStatus.Executed,
          validation_index := min s.validation_index i } ∧
      (s.tx_statuses.set i TransactionStatus.Executed)[i]? =
        some TransactionStatus.Executed ∧
      min s.validation_index i ≤ i ∧
      min s.validation_index i ≤ s.validation_index) := by
  have hlen : i < s.tx_statuses.length := (List.getElem?_eq_some.mp hst).1
  constructor
  · intro hne
    simp [Scheduler.finish_execution, Scheduler.set_executed_status,
      Scheduler.lock_tx_status, hst, hne]
  · intro hex
    subst hex
    refine ⟨?_, ?_, ?_, ?_⟩
    · simp [Scheduler.finish_execution, Scheduler.set_executed_status,
        Scheduler.lock_tx_status, hst, Scheduler.write_tx_status,
        Scheduler.decrease_validation_index]
    · exact List.getElem?_set_self hlen
    · exact Nat.min_le_right _ _
    · exact Nat.min_le_left _ _

/-- Witness for C5: finishing the execution of transaction 1 in a
two-transaction chunk marks it `Executed` and lowers the validation cursor
from 2 to 1. -/
theorem finish_execution_correct_witness :
    Scheduler.finish_execution
        ((Scheduler.new 2).set_tx_status 1 TransactionStatus.Executing) 1 =
      some { execution_index := 0, validation_index := 1, commit_index := 0, chunk_size := 2,
             tx_statuses := [TransactionStatus.ReadyToExecute, TransactionStatus.Executed],
             done_marker := false } :=
  (((finish_execution_correct ((Scheduler.new 2).set_tx_status 1 TransactionStatus.Executing) 1
      TransactionStatus.Executing (by decide)).2 rfl).1).trans (by decide)

/-- Claim C6: `finish_abort(i)` moves status i from `Aborting` to
`ReadyToExecute`, panicking when the status is anything else; it returns an
`ExecutionTask` for i (leaving status i `Executing`) exactly when the
execution cursor is strictly above i, and `AskForTask` (leaving status i
`ReadyToExecute`) otherwise. -/
theorem finish_abort_correct (s : Scheduler) (i : Nat) (st : TransactionStatus)
    (hlen : s.tx_statuses.length = s.chunk_size)
    (hst : s.tx_statuses[i]? = some st) :
    (st ≠ TransactionStatus.Aborting → s.finish_abort i = none) ∧
    (st = TransactionStatus.Aborting → i < s.execution_index →
      s.finish_abort i =
        some (Task.ExecutionTask i,
          { s with tx_statuses := s.tx_statuses.set i TransactionStatus.Executing })) ∧
    (st = TransactionStatus.Aborting → s.execution_index ≤ i →
      s.finish_abort i =
        some (Task.AskForTask,
          { s with tx_statuses := s.tx_statuses.set i TransactionStatus.ReadyToExecute })) := by
  have hilen : i < s.tx_statuses.length := (List.getElem?_eq_some.mp hst).1
  have hic : i < s.chunk_size := hlen ▸ hilen
  refine ⟨?_, ?_, ?_⟩
  · intro hne
    simp [Scheduler.finish_abort, Scheduler.set_ready_status, Scheduler.lock_tx_status,
      hst, hne]
  · intro hab hlt
    subst hab
    simp [Scheduler.finish_abort, Scheduler.set_ready_status, Scheduler.lock_tx_status,
      hst, Scheduler.write_tx_status, Scheduler.try_incarnate, hic, hlt,
      List.getElem?_set_self hilen, List.set_set]
  · intro hab hge
    subst hab
    simp [Scheduler.finish_abort, Scheduler.set_ready_status, Scheduler.lock_tx_status,
      hst, Scheduler.write_tx_status, Nat.not_lt.mpr hge]

/-- Witness for C6: aborted transaction 1 behind the execution cursor is
handed straight back as an execution task. -/
theorem finish_abort_correct_witness :
    Scheduler.finish_abort
        ({ (Scheduler.new 2).set_tx_status 1 TransactionStatus.Aborting with
            execution_index := 2 }) 1 =
      some (Task.ExecutionTask 1,
        { execution_index := 2, validation_index := 2, commit_index := 0, chunk_size := 2,
          tx_statuses := [TransactionStatus.ReadyToExecute, TransactionStatus.Executing],
          done_marker := false }) :=
  ((finish_abort_correct
      ({ (Scheduler.new 2).set_tx_status 1 TransactionStatus.Aborting with
          execution_index := 2 }) 1 TransactionStatus.Aborting (by decide)
      (by decide)).2.1 rfl (by decide)).trans (by decide)

/-- Claim C7: `try_validation_abort(i)` succeeds exactly when status i is
`Executed` at the time of the call, in which case it sets status i to
`Aborting`; when it fails it returns the scheduler completely unchanged. -/
theorem try_validation_abort_correct (s : Scheduler) (i : Nat) (st : TransactionStatus)
    (hst : s.tx_statuses[i]? = some st) :
    (st = TransactionStatus.Executed →
      s.try_validation_abort i =
        some (true,
          { s with tx_statuses := s.tx_statuses.set i TransactionStatus.Aborting })) ∧
    (st ≠ TransactionStatus.Executed →
      s.try_validation_abort i = some (false, s)) := by
  constructor
  · intro hex
    subst hex
    simp [Scheduler.try_validation_abort, Scheduler.lock_tx_status, hst,
      Scheduler.write_tx_status]
  · intro hne
    simp [Scheduler.try_validation_abort, Scheduler.lock_tx_status, hst, hne]

/-- Witness for C7: claiming the abort of an `Executed` transaction 0
succeeds and marks it `Aborting`. -/
theorem try_validation_abort_correct_witness :
    Scheduler.try_validation_abort
        ((Scheduler.new 2).set_tx_status 0 TransactionStatus.Executed) 0 =
      some (true,
        { execution_index := 0, validation_index := 2, commit_index := 0, chunk_size := 2,
          tx_statuses := [TransactionStatus.Aborting, TransactionStatus.ReadyToExecute],
          done_marker := false }) :=
  ((try_validation_abort_correct
      ((Scheduler.new 2).set_tx_status 0 TransactionStatus.Executed) 0
      TransactionStatus.Executed (by decide)).1 rfl).trans (by decide)

/-- Claim C8: `halt_scheduler` panics when the commit cursor is 0; otherwise
it decrements the cursor from k to k - 1 and sets the done marker, after
which `get_n_committed_txs` reports k - 1 and `next_task` answers `Done`. -/
theorem halt_scheduler_correct (s : Scheduler) :
    (s.commit_index = 0 → TransactionCommitter.halt_scheduler s = none) ∧
    (0 < s.commit_index →
      TransactionCommitter.halt_scheduler s =
        some { s with commit_index := s.commit_index - 1, done_marker := true } ∧
      ({ s with
          commit_index := s.commit_index - 1,
          done_marker := true } : Scheduler).get_n_committed_txs = s.commit_index - 1 ∧
      ({ s with
          commit_index := s.commit_index - 1,
          done_marker := true } : Scheduler).next_task =
        (Task.Done,
          { s with commit_index := s.commit_index - 1, done_marker := true })) := by
  constructor
  · intro h0
    simp [TransactionCommitter.halt_scheduler, h0]
  · intro hpos
    refine ⟨?_, rfl, ?_⟩
    · simp [TransactionCommitter.halt_scheduler, Scheduler.halt, hpos]
    · simp [Scheduler.next_task, Scheduler.done]

/-- Witness for C8: halting with commit cursor 2 rolls it back to 1 and sets
the done marker. -/
theorem halt_scheduler_correct_witness :
    TransactionCommitter.halt_scheduler ({ Scheduler.new 4 with commit_index := 2 }) =
      some { execution_index := 0, validation_index := 4, commit_index := 1, chunk_size := 4,
             tx_statuses := List.replicate 4 TransactionStatus.ReadyToExecute,
             done_marker := true } :=
  ((halt_scheduler_correct ({ Scheduler.new 4 with commit_index := 2 })).2
    (by decide)).1.trans (by decide)

/-- Claim C9: the done marker is sticky: once it is true, `next_task` answers
`Done` without changing state, `try_commit` returns nothing without changing
state, and every other operation (`halt`, `finish_execution`,
`try_validation_abort`, `finish_abort`, `finish_execution_during_commit`,
`halt_scheduler`) leaves it true in every state it can reach. -/
theorem done_marker_sticky (s : Scheduler) (hd : s.done_marker = true) :
    s.next_task = (Task.Done, s) ∧
    TransactionCommitter.try_commit s = some (none, s) ∧
    s.halt.done_marker = true ∧
    (∀ i s1, s.finish_execution i = some s1 → s1.done_marker = true) ∧
    (∀ i r, s.try_validation_abort i = some r → (r.2).done_marker = true) ∧
    (∀ i r, s.finish_abort i = some r → (r.2).done_marker = true) ∧
    (∀ i, (s.finish_execution_during_commit i).done_marker = true) ∧
    (∀ s1, TransactionCommitter.halt_scheduler s = some s1 → s1.done_marker = true) := by
  refine ⟨?_, ?_, rfl, ?_, ?_, ?_, ?_, ?_⟩
  · simp [Scheduler.next_task, Scheduler.done, hd]
  · simp [TransactionCommitter.try_commit, Scheduler.done, hd]
  · intro i s1 h
    exact (Scheduler.finish_execution_fields s i s1 h).1.trans hd
  · intro i r h
    exact (Scheduler.try_validation_abort_fields s i r h).1.trans hd
  · intro i r h
    exact (Scheduler.finish_abort_fields s i r h).1.trans hd
  · intro i
    exact hd
  · intro s1 h
    unfold TransactionCommitter.halt_scheduler at h
    by_cases hpos : s.commit_index > 0
    · simp [hpos] at h
      rw [h.symm]
      rfl
    · simp [hpos] at h

/-- Witness for C9: a halted two-transaction scheduler keeps answering
`Done`. -/
theorem done_marker_sticky_witness :
    (Scheduler.halt (Scheduler.new 2)).next_task =
      (Task.Done, Scheduler.halt (Scheduler.new 2)) :=
  (done_marker_sticky (Scheduler.halt (Scheduler.new 2)) rfl).1

/-- Claim C10: when `next_task` takes the validation branch and the claimed
index has a status other than `Executed`, the fetch-add on the validation
cursor is not rolled back: the cursor stays advanced past the claimed index
and the same call falls through to attempt an execution task.  Moreover a
validation task always carries the pre-fetch-add cursor value, the cursor
never moves down in `next_task`, and no operation other than the explicit
`decrease_validation_index` callers (`finish_execution`,
`finish_execution_during_commit`) lowers it, so the skipped index is not
handed out for validation again until the cursor is explicitly decreased. -/
theorem validation_claim_not_rolled_back (s : Scheduler) (st : TransactionStatus)
    (hd : s.done_marker = false)
    (hve : s.validation_index < s.execution_index)
    (hvc : s.validation_index < s.chunk_size)
    (hsv : s.tx_statuses[s.validation_index]? = some st)
    (hne : st ≠ TransactionStatus.Executed) :
    ((s.next_task).2).validation_index = s.validation_index + 1 ∧
    s.next_task =
      (match ({ s with validation_index := s.validation_index + 1 }
          : Scheduler).next_version_to_execute with
        | (some j, s2) => (Task.ExecutionTask j, s2)
        | (none, s2) => (Task.AskForTask, s2)) ∧
    (∀ t : Scheduler, ∀ j, ((t.next_task).1 = Task.ValidationTask j →
      j = t.validation_index)) ∧
    (∀ t : Scheduler, t.validation_index ≤ ((t.next_task).2).validation_index) ∧
    (∀ t : Scheduler, ∀ i r, (t.try_validation_abort i = some r →
      (r.2).validation_index = t.validation_index)) ∧
    (∀ t : Scheduler, ∀ i r, (t.finish_abort i = some r →
      (r.2).validation_index = t.validation_index)) ∧
    (∀ t : Scheduler, (t.halt).validation_index = t.validation_index) ∧
    (∀ t : Scheduler, ∀ r, (TransactionCommitter.try_commit t = some r →
      (r.2).validation_index = t.validation_index)) ∧
    (∀ t : Scheduler, ∀ t2, (TransactionCommitter.halt_scheduler t = some t2 →
      t2.validation_index = t.validation_index)) := by
  have hmin : ¬ s.chunk_size ≤ min s.validation_index s.execution_index := by omega
  have hmiss := Scheduler.nvv_miss s st hvc hsv hne
  have heq : s.next_task =
      (match ({ s with validation_index := s.validation_index + 1 }
          : Scheduler).next_version_to_execute with
        | (some j, s2) => (Task.ExecutionTask j, s2)
        | (none, s2) => (Task.AskForTask, s2)) := by
    simp [Scheduler.next_task, Scheduler.done, hd, hmin, hve, hmiss]
  refine ⟨?_, heq, ?_, ?_, ?_, ?_, ?_, ?_, ?_⟩
  · rw [heq]
    rcases hnve : ({ s with validation_index := s.validation_index + 1 }
        : Scheduler).next_version_to_execute with ⟨o, s2⟩
    have hval := Scheduler.nve_validation_eq
      ({ s with validation_index := s.validation_index + 1 } : Scheduler)
    rw [hnve] at hval
    cases o <;> simpa using hval
  · intro t j h
    rw [Scheduler.next_task_fst_eq] at h
    unfold next_task_decision at h
    split at h
    · exact absurd h (by simp)
    · split at h
      · exact absurd h (by simp)
      · split at h
        · rw [Task.ValidationTask.injEq] at h
          exact h.symm
        · split at h
          · exact absurd h (by simp)
          · exact absurd h (by simp)
  · intro t
    exact (Scheduler.next_task_snd_fields t).2.2.2
  · intro t i r h
    exact (Scheduler.try_validation_abort_fields t i r h).2.2.2
  · intro t i r h
    exact (Scheduler.finish_abort_fields t i r h).2.2.2
  · intro t
    rfl
  · intro t r h
    exact TransactionCommitter.try_commit_validation_eq t r h
  · intro t t2 h
    unfold TransactionCommitter.halt_scheduler at h
    by_cases hpos : t.commit_index > 0
    · simp [hpos] at h
      rw [h.symm]
      rfl
    · simp [hpos] at h

/-- Witness for C10: with the validation cursor at 0 on a `ReadyToExecute`
transaction and the execution cursor at 2, the dispatcher's failed validation
claim leaves the cursor at 1. -/
theorem validation_claim_not_rolled_back_witness :
    ((({ Scheduler.new 2 with validation_index := 0, execution_index := 2 }
        : Scheduler).next_task).2).validation_index = 0 + 1 :=
  (validation_claim_not_rolled_back
    ({ Scheduler.new 2 with validation_index := 0, execution_index := 2 })
    TransactionStatus.ReadyToExecute rfl (by decide) (by decide) (by decide)
    (by decide)).1

end Blockifier
